import Mathlib

/-!
Shallow embedding of `run_pretraining.py` ( i-Code-Doc pretraining driver ).

The script's `main` is orchestration code: argument loading, checkpoint
detection, tokenizer/model finalization, dataset assembly, and calls into an
external trainer.  We embed it as a pure function from an explicit environment
(`Env`, holding the argument flags and the observable state of the world:
output-directory listing, tokenizer limits, distributed rank, evaluation
metrics) to either a Python-style exception (`PyError`) or a `MainOutcome`
recording the computed values and the trace of external effects (train call,
evaluate call, file writes).
-/

namespace RunPretraining

/-- Decidable equality on `Except`, so that concrete runs of the embedded
script can be checked by `decide`. -/
instance {ε α : Type} [DecidableEq ε] [DecidableEq α] : DecidableEq (Except ε α) := fun x y =>
  match x, y with
  | .error a, .error b =>
    if h : a = b then .isTrue (by rw [h]) else .isFalse (by intro he; cases he; exact h rfl)
  | .ok a, .ok b =>
    if h : a = b then .isTrue (by rw [h]) else .isFalse (by intro he; cases he; exact h rfl)
  | .error _, .ok _ => .isFalse (by intro he; cases he)
  | .ok _, .error _ => .isFalse (by intro he; cases he)

/-- Python-level exceptions the script can raise.  `bareRaise` models the
`raise` statement with no argument at line 161 of `run_pretraining.py`
(outside any `except` block Python turns it into
`RuntimeError: No active exception to re-raise`, carrying no information about
the configuration).  `nameError` models referencing a never-bound local
variable (Python raises `UnboundLocalError`, a subclass of `NameError`). -/
inductive PyError
  | valueError (msg : String)
  | nameError (name : String)
  | bareRaise
  | jsonDecodeError (msg : String)
  | attributeError (attr : String)
  deriving DecidableEq, Repr

/-- One dataset-constructor call site in `run_pretraining.py` (the dataset
classes themselves live in `core/datasets`, outside this file's scope; only
which constructor is called, with which `task`/`mode` arguments, is visible
here).  `IITCDIPDataset` takes an optional `task` (lines 156) or an optional
`mode` (line 166, the eval split); the supervised constructors take a `task`
string (line 158). -/
inductive DatasetTag
  | IITCDIPDataset (task : Option String) (mode : Option String)
  | Publaynet (task : String)
  | Docbank (task : String)
  | Websrc (task : String)
  | VisualMRC (task : String)
  | Duebenchmark
  deriving DecidableEq, Repr

/-- Model of `torch.utils.data.dataset.ConcatDataset` applied to a list of
datasets (line 164): only the list of concatenated parts is observable
here. -/
inductive Dataset
  | concat (parts : List DatasetTag)
  deriving DecidableEq, Repr

/-- The tokenizer state the script observes and mutates: its maximum sequence
length (`tokenizer.model_max_length`, line 145-146) and its vocabulary size
(`len(tokenizer)`, line 147). -/
structure Tokenizer where
  model_max_length : Nat
  vocab_size : Nat
  deriving DecidableEq, Repr, Inhabited

/-- The model state the script observes and mutates: the size of its
token-embedding table (`model.resize_token_embeddings`, line 147). -/
structure Model where
  embedding_size : Nat
  deriving DecidableEq, Repr, Inhabited

/-- Model of `model.resize_token_embeddings(n)` (line 147). -/
def resize_token_embeddings (m : Model) (n : Nat) : Model :=
  { m with embedding_size := n }

/-- Lines 145-146: `if data_args.max_seq_length > tokenizer.model_max_length:
tokenizer.model_max_length = data_args.max_seq_length`. -/
def adjustTokenizerMaxLength (max_seq_length : Nat) (tok : Tokenizer) : Tokenizer :=
  if max_seq_length > tok.model_max_length then
    { tok with model_max_length := max_seq_length }
  else
    tok

/-- Lines 139-147 in order: load the tokenizer, raise its maximum length when
the configured `max_seq_length` exceeds it, then resize the model's embedding
table to the (already adjusted) tokenizer's vocabulary size
(`model.resize_token_embeddings(len(tokenizer))`). -/
def loadTokenizerAndResize (max_seq_length : Nat) (tok : Tokenizer) (m : Model) :
    Tokenizer × Model :=
  let tokenizer := adjustTokenizerMaxLength max_seq_length tok
  (tokenizer, resize_token_embeddings m tokenizer.vocab_size)

/-- The environment `main` runs in: the argument flags it consults, plus the
observable state of the world (whether the output directory exists and its
listing, the tokenizer/model sizes the pretrained loaders return, the
distributed-rank predicate `trainer.is_world_process_zero()`, and the metric
items `trainer.evaluate()` returns, values already rendered by `str`). -/
structure Env where
  output_dir : String
  dirExists : Bool
  listing : List String
  do_train : Bool
  do_eval : Bool
  overwrite_output_dir : Bool
  do_selfsupervised : Bool
  do_supervised : Bool
  max_seq_length : Nat
  tokenizer_model_max_length : Nat
  tokenizer_vocab_size : Nat
  model_embedding_size : Nat
  is_world_process_zero : Bool
  eval_result : List (String × String)
  deriving DecidableEq, Repr, Inhabited

/-- Model of Python `str.startswith`, over the character lists. -/
def str_startswith (s pre : String) : Bool :=
  pre.data.isPrefixOf s.data

/-- Model of Python `str.endswith`, over the character lists. -/
def str_endswith (s suffix : String) : Bool :=
  suffix.data.isSuffixOf s.data

/-- A non-empty all-digit character list parsed as a decimal number. -/
def parseDigits (cs : List Char) : Option Nat :=
  if !cs.isEmpty && cs.all Char.isDigit then
    some (cs.foldl (fun n c => n * 10 + (c.toNat - 48)) 0)
  else
    none

/-- The checkpoint-directory naming convention: an entry `checkpoint-<digits>`
yields its step number, anything else is not a checkpoint marker. -/
def checkpointNumber (name : String) : Option Nat :=
  if str_startswith name "checkpoint-" then parseDigits (name.data.drop 11)
  else none

/-- Modelled from the spec: `get_last_checkpoint` is imported from
`core.common.utils` (line 34), which is not under src/.  Per the spec it scans
the output directory for checkpoint markers and returns the path of the most
recent one, or nothing; the spec's scenario has a directory containing
`checkpoint-500/` yield `<output_dir>/checkpoint-500`.  We model it over the
directory's listing: keep the entries named `checkpoint-<n>`, pick the one
with the largest `n`, and join it to the directory. -/
def get_last_checkpoint (dir : String) (listing : List String) : Option String :=
  let cks := listing.filterMap fun n => (checkpointNumber n).map fun k => (k, n)
  let best := cks.foldl
    (fun best p =>
      match best with
      | none => some p
      | some q => if p.1 > q.1 then some p else some q)
    none
  best.map fun q => dir ++ "/" ++ q.2

/-- Lines 74-86: `last_checkpoint = None`; when the output directory exists,
`do_train` is set and `overwrite_output_dir` is not, run `get_last_checkpoint`;
if it found nothing and the directory is non-empty, raise a `ValueError`
naming the directory; otherwise keep what it found (logging aside). -/
def detectLastCheckpoint (e : Env) : Except PyError (Option String) :=
  if e.dirExists && e.do_train && !e.overwrite_output_dir then
    let last_checkpoint := get_last_checkpoint e.output_dir e.listing
    if last_checkpoint.isNone && e.listing.length > 0 then
      .error (.valueError
        ("Output directory (" ++ e.output_dir ++
          ") already exists and is not empty. Use --overwrite_output_dir to overcome."))
    else
      .ok last_checkpoint
  else
    .ok none

/-- Line 156: the three self-supervised `IITCDIPDataset` instances, in source
order of their `task` arguments. -/
def selfsupervisedDatasets : List DatasetTag :=
  [ .IITCDIPDataset (some "layout_modeling") none,
    .IITCDIPDataset (some "text_and_layout_reconstruction") none,
    .IITCDIPDataset (some "visual_text_recognition") none ]

/-- Line 158: the six supervised dataset instances, in source order. -/
def supervisedDatasets : List DatasetTag :=
  [ .Publaynet "layout",
    .Docbank "layout",
    .Docbank "ie",
    .Websrc "qa",
    .VisualMRC "qa",
    .Duebenchmark ]

/-- Model of `train_dataset['lang'] += xs` on the dict modelled as an
association list. -/
def dictAppend (d : List (String × List DatasetTag)) (k : String)
    (xs : List DatasetTag) : List (String × List DatasetTag) :=
  d.map fun kv => if kv.1 = k then (kv.1, kv.2 ++ xs) else kv

/-- Lines 152-164: start from an empty dict; create the `'lang'` entry when
either flag is set; append the self-supervised triple and/or the supervised
six; if the dict is still empty execute the bare `raise`; finally wrap each
entry's list in a `ConcatDataset`. -/
def assembleTrainDataset (do_selfsupervised do_supervised : Bool) :
    Except PyError (List (String × Dataset)) := Id.run do
  let mut train_dataset : List (String × List DatasetTag) := []
  if do_selfsupervised || do_supervised then
    train_dataset := [("lang", [])]
  if do_selfsupervised then
    train_dataset := dictAppend train_dataset "lang" selfsupervisedDatasets
  if do_supervised then
    train_dataset := dictAppend train_dataset "lang" supervisedDatasets
  if train_dataset.isEmpty then
    return .error .bareRaise
  return .ok (train_dataset.map fun kv => (kv.1, Dataset.concat kv.2))

/-- Lines 166-171: the evaluation dataset is an `IITCDIPDataset` with
`mode='dev'` when `do_eval` is set, and `None` otherwise. -/
def evalDataset (e : Env) : Option DatasetTag :=
  if e.do_eval then some (.IITCDIPDataset none (some "dev")) else none

/-- Externally observable effects of the script: the trainer's train call with
its `resume_from_checkpoint` argument, the trainer's evaluate call, and the
file-writing side effects (model save, tokenizer save, trainer state save,
and the evaluation-results file with its content). -/
inductive Effect
  | trainCall (resume_from_checkpoint : Option String)
  | evalCall
  | saveModel (output_dir : String)
  | saveTokenizer (output_dir : String)
  | saveTrainerState (path : String)
  | writeFile (path : String) (content : String)
  deriving DecidableEq, Repr

/-- Whether an effect writes to the filesystem (the train/evaluate calls
themselves are computations handed to the external trainer, not writes
performed by this script). -/
def Effect.isFileWrite : Effect → Bool
  | .trainCall _ => false
  | .evalCall => false
  | .saveModel _ => true
  | .saveTokenizer _ => true
  | .saveTrainerState _ => true
  | .writeFile _ _ => true

/-- Modelled from the spec: `trainer.save_model()` (line 200) is
`PretrainTrainer.save_model` from `core/trainers`, which is not under src/.
Per the spec, the model (and tokenizer) are saved to the output directory
only on the designated primary process in distributed settings. -/
def trainer_save_model (is_world_process_zero : Bool) (output_dir : String) :
    List Effect :=
  if is_world_process_zero then [.saveModel output_dir] else []

/-- Lines 192-206, the training phase: call `trainer.train` with
`resume_from_checkpoint` equal to the detected checkpoint (or `None`), then
`trainer.save_model()`, then—on the primary process only—save the tokenizer
and the trainer state (`trainer_state.json`) to the output directory. -/
def trainPhaseEffects (e : Env) (last_checkpoint : Option String) : List Effect :=
  if e.do_train then
    [Effect.trainCall last_checkpoint]
      ++ trainer_save_model e.is_world_process_zero e.output_dir
      ++ (if e.is_world_process_zero then
            [Effect.saveTokenizer e.output_dir,
             Effect.saveTrainerState (e.output_dir ++ "/trainer_state.json")]
          else [])
  else []

/-- Lines 215-219: the file is opened for writing and, for each metric item,
`f'{key} = {value}\n'` is appended; the final content is this left fold. -/
def evalResultsContent (result : List (String × String)) : String :=
  result.foldl (fun acc kv => acc ++ kv.1 ++ " = " ++ kv.2 ++ "\n") ""

/-- Lines 208-221, the evaluation phase: call `trainer.evaluate()` (on every
process), then—on the primary process only—write
`<output_dir>/eval_results.txt` with one `key = value` line per metric. -/
def evalPhaseEffects (e : Env) : List Effect :=
  if e.do_eval then
    [Effect.evalCall]
      ++ (if e.is_world_process_zero then
            [Effect.writeFile (e.output_dir ++ "/eval_results.txt")
              (evalResultsContent e.eval_result)]
          else [])
  else []

/-- The three argument records `HfArgumentParser` produces (lines 47-61).
The concrete dataclass fields live in `config.py`, which is not under src/;
only the records' existence matters to the loader's control flow, so each is
modelled as a generic field mapping. -/
structure ParsedArgs where
  model_args : List (String × String)
  data_args : List (String × String)
  training_args : List (String × String)
  deriving DecidableEq, Repr, Inhabited

/-- The value `json.loads` returns on success.  Its structure is irrelevant
here: the script immediately calls `.read_text()` on it (line 57), which no
JSON value supports, and on this script's inputs `json.loads` never succeeds
anyway (it is applied to a filesystem path, not to JSON text). -/
inductive PyJson
  | raw (s : String)
  deriving DecidableEq, Repr

/-- The whitespace characters `json.loads` skips before the first token. -/
def jsonWhitespaceChar (c : Char) : Bool :=
  c = ' ' || c = '\t' || c = '\n' || c = '\r'

/-- The characters that can begin a JSON value: an object, an array, a
string, a number, or one of the literals `true`/`false`/`null`.  A slash —
the first character of every absolute POSIX path — is not among them. -/
def jsonStartChar (c : Char) : Bool :=
  c = '\x7b' || c = '[' || c = '\x22' || c = '-' || c.isDigit ||
    c = 't' || c = 'f' || c = 'n'

/-- Model of Python `json.loads`, to the fidelity line 57 exercises: if the
first non-whitespace character of the input cannot begin a JSON value, raise
`json.JSONDecodeError` ("Expecting value"); otherwise succeed with the parsed
value (kept opaque, see `PyJson`). -/
def json_loads (s : String) : Except PyError PyJson :=
  match (s.data.dropWhile jsonWhitespaceChar).head? with
  | some c =>
    if jsonStartChar c then .ok (.raw s)
    else .error (.jsonDecodeError "Expecting value: line 1 column 1 (char 0)")
  | none => .error (.jsonDecodeError "Expecting value: line 1 column 1 (char 0)")

/-- A POSIX path is absolute exactly when it begins with a slash. -/
def isAbsolutePath (s : String) : Bool :=
  s.data.head? == some '/'

/-- Model of `os.path.abspath` on POSIX: an absolute path is returned as is;
a relative one is joined to the current working directory (which is itself
absolute).  Normalization of `.`/`..` segments is irrelevant here. -/
def os_path_abspath (cwd path : String) : String :=
  if isAbsolutePath path then path else cwd ++ "/" ++ path

/-- Model of `.read_text()` on the result of `json.loads` (line 57): `json.loads`
returns a dict, list, str, number, bool or `None`, and none of these Python
types has a `read_text` method, so the attribute access raises
`AttributeError`.  (`read_text` is a `pathlib.Path` method; the intended
code, left commented out at lines 55-56, used `parser.parse_json_file`.) -/
def PyJson.read_text (_j : PyJson) : Except PyError String :=
  .error (.attributeError "read_text")

/-- Lines 47-61: if exactly one argument is passed and it ends in `.json`,
run `json.loads(os.path.abspath(sys.argv[1])).read_text()` and feed the
result to `parser.parse_dict`; otherwise run
`parser.parse_args_into_dataclasses()`.  The two external parser entry points
are parameters (`HfArgumentParser` is third-party code). -/
def loadArguments (cwd : String) (argv : List String)
    (parse_args_into_dataclasses : ParsedArgs)
    (parse_dict : String → ParsedArgs) : Except PyError ParsedArgs :=
  match argv with
  | [_prog, a1] =>
    if str_endswith a1 ".json" then
      match json_loads (os_path_abspath cwd a1) with
      | .error err => .error err
      | .ok j =>
        match j.read_text with
        | .error err => .error err
        | .ok args_dict => .ok (parse_dict args_dict)
    else .ok parse_args_into_dataclasses
  | _ => .ok parse_args_into_dataclasses

/-- The record of a completed run: the detected checkpoint, the finalized
tokenizer and model, the assembled training-dataset dict, the evaluation
dataset, the effect trace, and the `results` dict accumulated at line 221
(updated only on the primary process). -/
structure MainOutcome where
  last_checkpoint : Option String
  tokenizer : Tokenizer
  model : Model
  train_dataset : Option (List (String × Dataset))
  eval_dataset : Option DatasetTag
  effects : List Effect
  results : List (String × String)
  deriving DecidableEq, Repr, Inhabited

/-- The body of `main` after argument parsing (lines 74-221), as a function of
the environment.  Steps in source order: detect the last checkpoint (may
raise `ValueError`); finalize tokenizer and model (lines 139-147); when
`do_train` is set, assemble the training datasets (lines 151-164, may execute
the bare `raise`); construct the trainer (line 176-190) — its
`train_dataset=train_dataset` argument references a local variable that was
bound only inside the `if training_args.do_train:` block, so when `do_train`
is false Python raises `UnboundLocalError` here and neither phase runs; then
run the training phase and the evaluation phase. -/
def runMain (e : Env) : Except PyError MainOutcome :=
  match detectLastCheckpoint e with
  | .error err => .error err
  | .ok last_checkpoint =>
    let tm := loadTokenizerAndResize e.max_seq_length
      { model_max_length := e.tokenizer_model_max_length,
        vocab_size := e.tokenizer_vocab_size }
      { embedding_size := e.model_embedding_size }
    if e.do_train then
      match assembleTrainDataset e.do_selfsupervised e.do_supervised with
      | .error err => .error err
      | .ok train_dataset =>
        .ok { last_checkpoint := last_checkpoint
              , tokenizer := tm.1
              , model := tm.2
              , train_dataset := some train_dataset
              , eval_dataset := evalDataset e
              , effects := trainPhaseEffects e last_checkpoint ++ evalPhaseEffects e
              , results := if e.do_eval && e.is_world_process_zero then e.eval_result
                           else [] }
    else
      .error (.nameError "train_dataset")

/-- Whether an effect is compatible with the train call resuming from `ck`:
every `trainCall` effect must carry exactly `ck` as its
`resume_from_checkpoint`; the other effects are unconstrained. -/
def Effect.trainResumeIs (ck : Option String) : Effect → Bool
  | .trainCall r => r == ck
  | _ => true

/-- An environment whose output directory pre-exists, is non-empty, and holds
no checkpoint marker, with training requested and no overwrite flag. -/
def envBlockedDir : Env :=
  { output_dir := "/tmp/run1"
    , dirExists := true
    , listing := ["somefile.txt"]
    , do_train := true
    , do_eval := false
    , overwrite_output_dir := false
    , do_selfsupervised := true
    , do_supervised := false
    , max_seq_length := 1024
    , tokenizer_model_max_length := 512
    , tokenizer_vocab_size := 32100
    , model_embedding_size := 32000
    , is_world_process_zero := true
    , eval_result := [] }

/-- The spec's resumption scenario: `output_dir=/tmp/run1` pre-exists and
contains `checkpoint-500/`, with `do_train=true` and
`overwrite_output_dir=false`. -/
def envResume : Env :=
  { output_dir := "/tmp/run1"
    , dirExists := true
    , listing := ["checkpoint-500"]
    , do_train := true
    , do_eval := false
    , overwrite_output_dir := false
    , do_selfsupervised := true
    , do_supervised := false
    , max_seq_length := 1024
    , tokenizer_model_max_length := 512
    , tokenizer_vocab_size := 32100
    , model_embedding_size := 32000
    , is_world_process_zero := true
    , eval_result := [] }

/-- The completed run of `envResume`. -/
def outcomeResume : MainOutcome :=
  ((runMain envResume).toOption).getD default

/-- A fresh-start environment: the output directory does not exist yet. -/
def envFresh : Env :=
  { output_dir := "/tmp/run2"
    , dirExists := false
    , listing := []
    , do_train := true
    , do_eval := false
    , overwrite_output_dir := false
    , do_selfsupervised := true
    , do_supervised := false
    , max_seq_length := 1024
    , tokenizer_model_max_length := 512
    , tokenizer_vocab_size := 32100
    , model_embedding_size := 32000
    , is_world_process_zero := true
    , eval_result := [] }

/-- The completed run of `envFresh`. -/
def outcomeFresh : MainOutcome :=
  ((runMain envFresh).toOption).getD default

/-- Training requested with neither self-supervised nor supervised data. -/
def envNoData : Env :=
  { output_dir := "/tmp/run3"
    , dirExists := false
    , listing := []
    , do_train := true
    , do_eval := false
    , overwrite_output_dir := false
    , do_selfsupervised := false
    , do_supervised := false
    , max_seq_length := 1024
    , tokenizer_model_max_length := 512
    , tokenizer_vocab_size := 32100
    , model_embedding_size := 32000
    , is_world_process_zero := true
    , eval_result := [] }

/-- Training requested with both the self-supervised and the supervised flag
set. -/
def envBothFlags : Env :=
  { output_dir := "/tmp/run4"
    , dirExists := false
    , listing := []
    , do_train := true
    , do_eval := false
    , overwrite_output_dir := false
    , do_selfsupervised := true
    , do_supervised := true
    , max_seq_length := 1024
    , tokenizer_model_max_length := 512
    , tokenizer_vocab_size := 32100
    , model_embedding_size := 32000
    , is_world_process_zero := true
    , eval_result := [] }

/-- The completed run of `envBothFlags`. -/
def outcomeBothFlags : MainOutcome :=
  ((runMain envBothFlags).toOption).getD default

/-- Self-supervised-only training into a fresh directory. -/
def envSelfsupOnly : Env :=
  { output_dir := "/tmp/run5"
    , dirExists := false
    , listing := []
    , do_train := true
    , do_eval := false
    , overwrite_output_dir := false
    , do_selfsupervised := true
    , do_supervised := false
    , max_seq_length := 1024
    , tokenizer_model_max_length := 512
    , tokenizer_vocab_size := 32100
    , model_embedding_size := 32000
    , is_world_process_zero := true
    , eval_result := [] }

/-- The completed run of `envSelfsupOnly`. -/
def outcomeSelfsupOnly : MainOutcome :=
  ((runMain envSelfsupOnly).toOption).getD default

/-- A training-and-evaluation run on the primary process, with the spec's
example metric mapping coming back from `trainer.evaluate()`. -/
def envEval : Env :=
  { output_dir := "/tmp/run6"
    , dirExists := false
    , listing := []
    , do_train := true
    , do_eval := true
    , overwrite_output_dir := false
    , do_selfsupervised := true
    , do_supervised := false
    , max_seq_length := 1024
    , tokenizer_model_max_length := 512
    , tokenizer_vocab_size := 32100
    , model_embedding_size := 32000
    , is_world_process_zero := true
    , eval_result := [("loss", "1.23"), ("accuracy", "0.87")] }

/-- The completed run of `envEval`. -/
def outcomeEval : MainOutcome :=
  ((runMain envEval).toOption).getD default

/-- An evaluation-only invocation: `do_eval=true`, `do_train=false`. -/
def envEvalOnly : Env :=
  { output_dir := "/tmp/run7"
    , dirExists := false
    , listing := []
    , do_train := false
    , do_eval := true
    , overwrite_output_dir := false
    , do_selfsupervised := true
    , do_supervised := false
    , max_seq_length := 1024
    , tokenizer_model_max_length := 512
    , tokenizer_vocab_size := 32100
    , model_embedding_size := 32000
    , is_world_process_zero := true
    , eval_result := [("loss", "1.23"), ("accuracy", "0.87")] }

/-- A full run on a non-primary process of a distributed job. -/
def envWorker : Env :=
  { output_dir := "/tmp/run8"
    , dirExists := false
    , listing := []
    , do_train := true
    , do_eval := true
    , overwrite_output_dir := false
    , do_selfsupervised := true
    , do_supervised := false
    , max_seq_length := 1024
    , tokenizer_model_max_length := 512
    , tokenizer_vocab_size := 32100
    , model_embedding_size := 32000
    , is_world_process_zero := false
    , eval_result := [("loss", "1.23")] }

/-- The completed run of `envWorker`. -/
def outcomeWorker : MainOutcome :=
  ((runMain envWorker).toOption).getD default

/-- The evaluation-results file content is the concatenation of one
`key = value` line per metric, in order. -/
theorem evalResultsContent_eq_join (r : List (String × String)) :
    evalResultsContent r =
      String.join (r.map fun kv => kv.1 ++ " = " ++ kv.2 ++ "\n") := by
  apply String.ext
  rw [String.data_join]
  suffices h : ∀ (l : List (String × String)) (acc : String),
      (l.foldl (fun acc kv => acc ++ kv.1 ++ " = " ++ kv.2 ++ "\n") acc).data
        = acc.data ++ (l.map fun kv => (kv.1 ++ " = " ++ kv.2 ++ "\n").data).flatten by
    unfold evalResultsContent
    rw [List.map_map]
    exact h r ""
  intro l
  induction l with
  | nil => intro acc; simp
  | cons kv t ih =>
    intro acc
    simp [List.foldl_cons, ih, String.data_append]

/-- When the directory does not exist, is empty, training is off, or the
overwrite flag is set, checkpoint detection returns no checkpoint and raises
nothing. -/
theorem detect_none_of_fresh (e : Env)
    (h : e.dirExists = false ∨ e.listing = [] ∨ e.do_train = false ∨
      e.overwrite_output_dir = true) :
    detectLastCheckpoint e = .ok none := by
  unfold detectLastCheckpoint
  rcases h with h | h | h | h
  · simp [h]
  · simp [h, get_last_checkpoint]
  · simp [h]
  · simp [h]

/-- Structure of every successful run: training was on, the checkpoint
detector returned the recorded checkpoint without raising, the dataset
assembly succeeded with the recorded dict, the tokenizer is the
maximum-length-adjusted one, the embedding table was resized to that
tokenizer's vocabulary, and the effect trace is the training phase followed
by the evaluation phase. -/
theorem runMain_ok_elim (e : Env) (o : MainOutcome) (ho : runMain e = .ok o) :
    e.do_train = true ∧
    detectLastCheckpoint e = .ok o.last_checkpoint ∧
    (∃ td, assembleTrainDataset e.do_selfsupervised e.do_supervised = .ok td ∧
      o.train_dataset = some td) ∧
    o.tokenizer = adjustTokenizerMaxLength e.max_seq_length
      { model_max_length := e.tokenizer_model_max_length,
        vocab_size := e.tokenizer_vocab_size } ∧
    o.model.embedding_size = o.tokenizer.vocab_size ∧
    o.effects = trainPhaseEffects e o.last_checkpoint ++ evalPhaseEffects e := by
  revert ho
  unfold runMain
  cases hd : detectLastCheckpoint e with
  | error err => intro ho; simp at ho
  | ok lc =>
    by_cases ht : e.do_train = true
    · cases ha : assembleTrainDataset e.do_selfsupervised e.do_supervised with
      | error err => intro ho; simp [ht, ha] at ho
      | ok td =>
        intro ho
        simp only [ht, if_true, ha] at ho
        injection ho with hrec
        subst hrec
        exact ⟨ht, rfl, ⟨td, rfl, rfl⟩, rfl, rfl, rfl⟩
    · intro ho
      simp [ht] at ho

/-- Every effect in a run whose train call resumes from `lc` is compatible
with `Effect.trainResumeIs lc`. -/
theorem all_trainResumeIs (e : Env) (lc : Option String) :
    (trainPhaseEffects e lc ++ evalPhaseEffects e).all (Effect.trainResumeIs lc)
      = true := by
  rcases he : e.do_train <;> rcases hv : e.do_eval <;>
    rcases hp : e.is_world_process_zero <;>
      simp [trainPhaseEffects, evalPhaseEffects, trainer_save_model, he, hv, hp,
        Effect.trainResumeIs]

/-- On a non-primary process, neither phase produces a file-writing
effect. -/
theorem all_not_fileWrite_of_worker (e : Env) (lc : Option String)
    (hp : e.is_world_process_zero = false) :
    (trainPhaseEffects e lc ++ evalPhaseEffects e).all
      (fun eff => ! eff.isFileWrite) = true := by
  rcases he : e.do_train <;> rcases hv : e.do_eval <;>
    simp [trainPhaseEffects, evalPhaseEffects, trainer_save_model, he, hv, hp,
      Effect.isFileWrite]

/-- C1: for every output directory that exists, is non-empty, and contains no
checkpoint marker, when `do_train` is true and `overwrite_output_dir` is
false, the run fails with a `ValueError` naming the directory.  The error
return means the script aborted during checkpoint detection: no training
effect is ever produced and the directory is not silently overwritten. -/
theorem output_dir_conflict_raises (e : Env)
    (hdir : e.dirExists = true) (hne : 0 < e.listing.length)
    (hck : get_last_checkpoint e.output_dir e.listing = none)
    (ht : e.do_train = true) (hov : e.overwrite_output_dir = false) :
    runMain e = .error (.valueError
      ("Output directory (" ++ e.output_dir ++
        ") already exists and is not empty. Use --overwrite_output_dir to overcome.")) := by
  have hd : detectLastCheckpoint e = .error (.valueError
      ("Output directory (" ++ e.output_dir ++
        ") already exists and is not empty. Use --overwrite_output_dir to overcome.")) := by
    unfold detectLastCheckpoint
    simp [hdir, ht, hov, hck, hne]
  unfold runMain
  rw [hd]

/-- Witness for C1 at a concrete input: a pre-existing `/tmp/run1` holding
only `somefile.txt`. -/
theorem output_dir_conflict_raises_witness :
    runMain envBlockedDir = .error (.valueError
      "Output directory (/tmp/run1) already exists and is not empty. Use --overwrite_output_dir to overcome.") :=
  output_dir_conflict_raises envBlockedDir rfl (by decide) (by decide) rfl rfl

/-- C2: for every output directory containing a valid last-checkpoint marker,
with `do_train` true and `overwrite_output_dir` false, detection returns that
checkpoint's path and no error, the detected path is recorded, and the
trainer's train call receives exactly that path as
`resume_from_checkpoint` (it is the only resume value any train call in the
run carries). -/
theorem checkpoint_detected_resumes (e : Env) (p : String)
    (hdir : e.dirExists = true) (ht : e.do_train = true)
    (hov : e.overwrite_output_dir = false)
    (hck : get_last_checkpoint e.output_dir e.listing = some p) :
    detectLastCheckpoint e = .ok (some p) ∧
    ∀ o, runMain e = .ok o →
      o.last_checkpoint = some p ∧
      Effect.trainCall (some p) ∈ o.effects ∧
      o.effects.all (Effect.trainResumeIs (some p)) = true := by
  have hd : detectLastCheckpoint e = .ok (some p) := by
    unfold detectLastCheckpoint
    simp [hdir, ht, hov, hck]
  refine ⟨hd, fun o ho => ?_⟩
  obtain ⟨ht2, hdo, _, _, _, heff⟩ := runMain_ok_elim e o ho
  rw [hd] at hdo
  injection hdo with hlc
  have hlc2 : o.last_checkpoint = some p := hlc.symm
  refine ⟨hlc2, ?_, ?_⟩
  · rw [heff, hlc2]
    simp [trainPhaseEffects, ht]
  · rw [heff, hlc2]
    exact all_trainResumeIs e (some p)

/-- Witness for C2: the spec's scenario, `/tmp/run1` containing
`checkpoint-500`, resumes from `/tmp/run1/checkpoint-500`. -/
theorem checkpoint_detected_resumes_witness :
    detectLastCheckpoint envResume = .ok (some "/tmp/run1/checkpoint-500") ∧
    outcomeResume.last_checkpoint = some "/tmp/run1/checkpoint-500" ∧
    Effect.trainCall (some "/tmp/run1/checkpoint-500") ∈ outcomeResume.effects :=
  have h := checkpoint_detected_resumes envResume "/tmp/run1/checkpoint-500"
    rfl rfl rfl (by decide)
  ⟨h.1, (h.2 outcomeResume (by decide)).1, (h.2 outcomeResume (by decide)).2.1⟩

/-- C3: when the output directory does not exist, or is empty, or `do_train`
is false, or `overwrite_output_dir` is true, the detector returns no
checkpoint and raises nothing, and any completed run records no checkpoint
and passes `None` as `resume_from_checkpoint` to every train call. -/
theorem fresh_start_trains_from_scratch (e : Env)
    (h : e.dirExists = false ∨ e.listing = [] ∨ e.do_train = false ∨
      e.overwrite_output_dir = true) :
    detectLastCheckpoint e = .ok none ∧
    ∀ o, runMain e = .ok o →
      o.last_checkpoint = none ∧
      o.effects.all (Effect.trainResumeIs none) = true := by
  have hd := detect_none_of_fresh e h
  refine ⟨hd, fun o ho => ?_⟩
  obtain ⟨ht, hdo, _, _, _, heff⟩ := runMain_ok_elim e o ho
  rw [hd] at hdo
  injection hdo with hlc
  have hlc2 : o.last_checkpoint = none := hlc.symm
  refine ⟨hlc2, ?_⟩
  rw [heff, hlc2]
  exact all_trainResumeIs e none

/-- Witness for C3: a nonexistent output directory yields no checkpoint, and
the completed run trains from scratch. -/
theorem fresh_start_trains_from_scratch_witness :
    detectLastCheckpoint envFresh = .ok none ∧
    outcomeFresh.last_checkpoint = none ∧
    outcomeFresh.effects.all (Effect.trainResumeIs none) = true :=
  have h := fresh_start_trains_from_scratch envFresh (Or.inl rfl)
  ⟨h.1, (h.2 outcomeFresh (by decide)).1, (h.2 outcomeFresh (by decide)).2⟩

/-- C4: with `do_train=true`, `do_selfsupervised=false`, `do_supervised=false`
the run does fail fatally before training — but via the bare `raise` at line
161, which carries no explanatory message (Python turns it into
`RuntimeError: No active exception to re-raise`), not via an explicit
configuration error as the claim states.  This theorem evaluates the code at
the failing input: dataset assembly executes the bare raise and the whole run
aborts with it (so there is, at least, no silent empty-dataset
continuation). -/
theorem no_training_data_bare_raise :
    assembleTrainDataset false false = .error .bareRaise ∧
    runMain envNoData = .error .bareRaise :=
  ⟨rfl, by decide⟩

/-- Counterexample to C5 as stated: with `do_train=true` and
`do_selfsupervised=true` but also `do_supervised=true`, the assembled
`"lang"` dataset concatenates nine parts (the self-supervised triple followed
by the six supervised datasets), not exactly three. -/
theorem both_flags_not_three_datasets :
    runMain envBothFlags = .ok outcomeBothFlags ∧
    outcomeBothFlags.train_dataset = some [("lang", Dataset.concat
      [ .IITCDIPDataset (some "layout_modeling") none,
        .IITCDIPDataset (some "text_and_layout_reconstruction") none,
        .IITCDIPDataset (some "visual_text_recognition") none,
        .Publaynet "layout",
        .Docbank "layout",
        .Docbank "ie",
        .Websrc "qa",
        .VisualMRC "qa",
        .Duebenchmark ])] ∧
    outcomeBothFlags.train_dataset ≠
      some [("lang", Dataset.concat selfsupervisedDatasets)] := by
  refine ⟨by decide, by decide, by decide⟩

/-- C5 (amended): for every run with `do_train=true`, `do_selfsupervised=true`
and `do_supervised=false`, the training dataset under `"lang"` is the
concatenation of exactly the three `IITCDIPDataset` task variants — layout
modeling, text-and-layout reconstruction, visual-text recognition — in that
order. -/
theorem selfsup_only_three_datasets (e : Env)
    (_ht : e.do_train = true) (hs : e.do_selfsupervised = true)
    (hns : e.do_supervised = false)
    (o : MainOutcome) (ho : runMain e = .ok o) :
    o.train_dataset = some [("lang", Dataset.concat
      [ .IITCDIPDataset (some "layout_modeling") none,
        .IITCDIPDataset (some "text_and_layout_reconstruction") none,
        .IITCDIPDataset (some "visual_text_recognition") none ])] := by
  obtain ⟨_, _, ⟨td, ha, htd⟩, _, _, _⟩ := runMain_ok_elim e o ho
  rw [hs, hns] at ha
  have h3 : assembleTrainDataset true false = .ok [("lang", Dataset.concat
      [ .IITCDIPDataset (some "layout_modeling") none,
        .IITCDIPDataset (some "text_and_layout_reconstruction") none,
        .IITCDIPDataset (some "visual_text_recognition") none ])] := by decide
  rw [h3] at ha
  injection ha with htd2
  rw [htd, ← htd2]

/-- Witness for C5 (amended): a self-supervised-only run assembles exactly
the three task datasets. -/
theorem selfsup_only_three_datasets_witness :
    outcomeSelfsupOnly.train_dataset = some [("lang", Dataset.concat
      [ .IITCDIPDataset (some "layout_modeling") none,
        .IITCDIPDataset (some "text_and_layout_reconstruction") none,
        .IITCDIPDataset (some "visual_text_recognition") none ])] :=
  selfsup_only_three_datasets envSelfsupOnly rfl rfl rfl outcomeSelfsupOnly (by decide)

/-- C6: in every completed run the tokenizer's maximum length equals the
configured `max_seq_length` when that exceeds the tokenizer's default, and is
left at the default otherwise; the tokenizer's vocabulary is untouched by
that adjustment, and the model's token-embedding table was resized to the
(final, already adjusted) tokenizer's vocabulary size — the adjustment at
lines 145-146 precedes the resize at line 147. -/
theorem tokenizer_max_raised_before_resize (e : Env)
    (o : MainOutcome) (ho : runMain e = .ok o) :
    o.tokenizer.model_max_length =
      (if e.max_seq_length > e.tokenizer_model_max_length then e.max_seq_length
       else e.tokenizer_model_max_length) ∧
    o.tokenizer.vocab_size = e.tokenizer_vocab_size ∧
    o.model.embedding_size = o.tokenizer.vocab_size := by
  obtain ⟨_, _, _, htok, hemb, _⟩ := runMain_ok_elim e o ho
  refine ⟨?_, ?_, hemb⟩
  · rw [htok]
    unfold adjustTokenizerMaxLength
    split <;> rfl
  · rw [htok]
    unfold adjustTokenizerMaxLength
    split <;> rfl

/-- Witness for C6: with `max_seq_length=1024` against a default of 512, the
completed run's tokenizer maximum is 1024 and the embedding table equals the
tokenizer's vocabulary size 32100. -/
theorem tokenizer_max_raised_before_resize_witness :
    outcomeSelfsupOnly.tokenizer.model_max_length = 1024 ∧
    outcomeSelfsupOnly.model.embedding_size = 32100 :=
  have h := tokenizer_max_raised_before_resize envSelfsupOnly outcomeSelfsupOnly
    (by decide)
  ⟨h.1, h.2.2.trans h.2.1⟩

/-- C7: for every invocation with a single command-line argument ending in
`.json` (run from any absolute working directory, with any behavior of the
external parser entry points), the argument loader does NOT read the file and
produce the three argument records: line 57 applies `json.loads` to the
file's absolute path instead of its contents, and an absolute POSIX path
begins with `/`, which cannot begin a JSON document, so the loader raises
`json.JSONDecodeError` unconditionally.  (The intended call,
`parser.parse_json_file`, sits commented out at lines 55-56.) -/
theorem json_config_invocation_fails (cwd a0 a1 : String) (pa : ParsedArgs)
    (pd : String → ParsedArgs) (hcwd : isAbsolutePath cwd = true)
    (hjson : str_endswith a1 ".json" = true) :
    loadArguments cwd [a0, a1] pa pd =
      .error (.jsonDecodeError "Expecting value: line 1 column 1 (char 0)") := by
  have habs : (os_path_abspath cwd a1).data.head? = some '/' := by
    unfold os_path_abspath
    by_cases hp : isAbsolutePath a1 = true
    · rw [if_pos hp]
      simpa [isAbsolutePath] using hp
    · rw [if_neg hp]
      have hc : cwd.data.head? = some '/' := by simpa [isAbsolutePath] using hcwd
      obtain ⟨t, htc⟩ : ∃ t, cwd.data = '/' :: t := by
        cases hcl : cwd.data with
        | nil => rw [hcl] at hc; simp at hc
        | cons c u =>
          rw [hcl] at hc
          simp at hc
          exact ⟨u, by rw [hc]⟩
      simp [String.data_append, htc]
  have hj : json_loads (os_path_abspath cwd a1) =
      .error (.jsonDecodeError "Expecting value: line 1 column 1 (char 0)") := by
    unfold json_loads
    obtain ⟨t, hta⟩ : ∃ t, (os_path_abspath cwd a1).data = '/' :: t := by
      cases hal : (os_path_abspath cwd a1).data with
      | nil => rw [hal] at habs; simp at habs
      | cons c u =>
        rw [hal] at habs
        simp at habs
        exact ⟨u, by rw [habs]⟩
    rw [hta]
    simp [List.dropWhile, jsonWhitespaceChar, jsonStartChar]
  unfold loadArguments
  simp [hjson, hj]

/-- Witness for C7 at the failing input `run_pretraining.py config.json`
executed from `/home/user`. -/
theorem json_config_invocation_fails_witness :
    loadArguments "/home/user" ["run_pretraining.py", "config.json"] default
        (fun _ => default) =
      .error (.jsonDecodeError "Expecting value: line 1 column 1 (char 0)") :=
  json_config_invocation_fails "/home/user" "run_pretraining.py" "config.json"
    default (fun _ => default) (by decide) (by decide)

/-- Counterexample to C8 as stated: in the evaluation-only run `envEvalOnly`
(`do_eval=true`, `do_train=false`, primary process, metrics
`{loss: 1.23, accuracy: 0.87}` ready to be returned), the script aborts with
the unbound-variable error at trainer construction, so evaluation never runs
and no `eval_results.txt` is written — refuting "for every run with
`do_eval=true`, evaluation runs". -/
theorem eval_only_run_crashes :
    runMain envEvalOnly = .error (.nameError "train_dataset") := by decide

/-- C8 (amended): for every run with `do_eval=true` that completes (which
requires `do_train=true`), evaluation runs, and on the primary process the
file `<output_dir>/eval_results.txt` is written whose content is the
concatenation of exactly one `key = value` line per metric, in order. -/
theorem eval_results_file_lines (e : Env)
    (hv : e.do_eval = true) (hp : e.is_world_process_zero = true)
    (o : MainOutcome) (ho : runMain e = .ok o) :
    Effect.evalCall ∈ o.effects ∧
    Effect.writeFile (e.output_dir ++ "/eval_results.txt")
      (evalResultsContent e.eval_result) ∈ o.effects ∧
    evalResultsContent e.eval_result =
      String.join (e.eval_result.map fun kv => kv.1 ++ " = " ++ kv.2 ++ "\n") := by
  obtain ⟨_, _, _, _, _, heff⟩ := runMain_ok_elim e o ho
  rw [heff]
  refine ⟨?_, ?_, evalResultsContent_eq_join e.eval_result⟩
  · simp [evalPhaseEffects, hv]
  · simp [evalPhaseEffects, hv, hp]

/-- Witness for C8 (amended): for the result mapping
`{loss: 1.23, accuracy: 0.87}` the completed run writes
`/tmp/run6/eval_results.txt` containing exactly the lines `loss = 1.23` and
`accuracy = 0.87`. -/
theorem eval_results_file_lines_witness :
    Effect.writeFile "/tmp/run6/eval_results.txt"
      "loss = 1.23\naccuracy = 0.87\n" ∈ outcomeEval.effects :=
  (eval_results_file_lines envEval rfl rfl outcomeEval (by decide)).2.1

/-- C9: in every completed run on a process that is not the primary one, the
effect trace contains no file-writing side effect at all: the model save (per
the spec, `save_model` writes only on the primary process), the tokenizer
save, the trainer-state save, and the evaluation-results write are all
skipped. -/
theorem worker_process_writes_nothing (e : Env)
    (hp : e.is_world_process_zero = false)
    (o : MainOutcome) (ho : runMain e = .ok o) :
    o.effects.all (fun eff => ! eff.isFileWrite) = true := by
  obtain ⟨_, _, _, _, _, heff⟩ := runMain_ok_elim e o ho
  rw [heff]
  exact all_not_fileWrite_of_worker e o.last_checkpoint hp

/-- Witness for C9: the non-primary run `envWorker` (train and eval both on)
produces only the train and evaluate calls, no writes. -/
theorem worker_process_writes_nothing_witness :
    outcomeWorker.effects.all (fun eff => ! eff.isFileWrite) = true :=
  worker_process_writes_nothing envWorker rfl outcomeWorker (by decide)

/-- C10: for every run with `do_train=false`, the script fails with the
unbound-name error on `train_dataset` (bound only inside the
`if training_args.do_train:` block yet passed to the trainer unconditionally
at line 179); the error return means the evaluation phase is never
reached. -/
theorem eval_without_train_unbound (e : Env) (h : e.do_train = false) :
    runMain e = .error (.nameError "train_dataset") := by
  have hd : detectLastCheckpoint e = .ok none :=
    detect_none_of_fresh e (Or.inr (Or.inr (Or.inl h)))
  unfold runMain
  rw [hd]
  simp [h]

/-- Witness for C10: the evaluation-only invocation aborts with the
unbound-name error. -/
theorem eval_without_train_unbound_witness :
    runMain envEvalOnly = .error (.nameError "train_dataset") :=
  eval_without_train_unbound envEvalOnly rfl

end RunPretraining
